import Mathlib

/-!
Verification of the pylens bidirectional parser-printer library (a shallow
embedding of its core in Lean 4).

The embedding below translates, from the Python sources:

  * `pylens/readers.py`   — the `ConcreteInputReader` (position-tracked string cursor);
  * `pylens/rollback.py`  — the `automatic_rollback` tentative scope;
  * `pylens/exceptions.py` — the exception taxonomy (as the `PyErr` type);
  * `pylens/item.py`      — metadata-carrying items (`PyItem` with a `Meta` bag);
  * `pylens/containers.py` — the list/dict containers, candidate filtering and sorting;
  * `pylens/base_lenses.py` — the lens algebra (`AnyOf`, `Literal`, `Empty`, `And`,
    `Group`, `Repeat`) together with the full `Lens.get` / `Lens.put` drivers,
    as a fuel-indexed interpreter (the fuel models Python's unbounded loops:
    a `.fuelOut` result for every fuel corresponds to divergence);
  * `pylens/core_lenses.py` — the `Until` lens GET and PUT.

Options `auto_list` and `combine_chars`, the `Or` and `Forward` lenses and the
`LensObject` container are outside the embedded fragment; no claim below needs
them.  Stateful Python code is modelled by explicit state passing: a raised
exception is an `Except.error`; since rollback-safe exceptions always lead the
engine to restore snapshotted state, an error result carries no state and the
caller resumes from the snapshot it holds, exactly as `automatic_rollback`
would restore it.
-/

namespace Pylens

/-! ### Exception taxonomy (exceptions.py)

`RollbackException` is the supertype; `LensException` subclasses it, and the
specialised kinds below subclass `LensException` (in particular
`EndOfStringException(LensException)`).  `InfiniteRecursionException` and
plain `Exception`/`AssertionError` (from `assert_msg` and `assert`) are
outside the rollback hierarchy: they are fatal.  `fuelOut` is the
interpreter's out-of-fuel marker; it is treated like a fatal error so that it
is never absorbed by a tentative scope. -/

inductive PyErr where
  | lens
  | noTokenToConsume
  | noDefault
  | tooFewIterations
  | notFullyConsumed
  | endOfString
  | fatal
  | fuelOut
deriving Repr, DecidableEq

/-- Membership in the `LensException` class (every kind above except the fatal
ones subclasses `LensException` in exceptions.py). -/
def PyErr.isLensException : PyErr → Bool
  | .fatal => false
  | .fuelOut => false
  | _ => true

/-- Membership in the `RollbackException` class.  `LensException` is its only
subclass and no bare `RollbackException` is ever raised, so the two
predicates coincide on raised errors. -/
def PyErr.isRollbackException (e : PyErr) : Bool :=
  e.isLensException

/-! ### Concrete input reader (readers.py) -/

/-- State of readers.ConcreteInputReader: an immutable source string plus a
mutable position.  Only the position is rollbackable state. -/
structure ConcreteInputReader where
  string : List Char
  position : Nat
deriving Repr, DecidableEq

namespace ConcreteInputReader

/-- Translation of `ConcreteInputReader(input_string)` for a string argument. -/
def ofString (s : List Char) : ConcreteInputReader := ⟨s, 0⟩

/-- Translation of `get_pos`. -/
def get_pos (r : ConcreteInputReader) : Nat := r.position

/-- Translation of `set_pos`. -/
def set_pos (r : ConcreteInputReader) (pos : Nat) : ConcreteInputReader :=
  { r with position := pos }

/-- Translation of `get_consumed_string(start_pos)`:
`self.string[start_pos : self.position]`. -/
def get_consumed_string (r : ConcreteInputReader) (start_pos : Nat) : List Char :=
  (r.string.take r.position).drop start_pos

/-- Translation of `get_remaining`: `self.string[self.position:]`. -/
def get_remaining (r : ConcreteInputReader) : List Char :=
  r.string.drop r.position

/-- Translation of `is_fully_consumed`: `self.position >= len(self.string)`. -/
def is_fully_consumed (r : ConcreteInputReader) : Bool :=
  r.position ≥ r.string.length

/-- Translation of `is_aligned_with(other)`: same position and same string. -/
def is_aligned_with (r other : ConcreteInputReader) : Bool :=
  r.position == other.position && r.string == other.string

/-- Translation of `consume_string(length)`.  The reader is returned alongside
the result so that the no-mutation-on-failure behaviour is explicit: when
`EndOfStringException` is raised the position has not been touched. -/
def consume_string (r : ConcreteInputReader) (length : Nat) :
    Except PyErr (List Char) × ConcreteInputReader :=
  if r.position + length > r.string.length then
    (.error .endOfString, r)
  else
    (.ok ((r.string.take (r.position + length)).drop r.position),
     { r with position := r.position + length })

/-- Translation of `consume_char`. -/
def consume_char (r : ConcreteInputReader) :
    Except PyErr Char × ConcreteInputReader :=
  if h : r.position < r.string.length then
    (.ok (r.string.get ⟨r.position, h⟩), { r with position := r.position + 1 })
  else
    (.error .endOfString, r)

end ConcreteInputReader

/-! ### The tentative scope (rollback.py)

`automatic_rollback` snapshots the targets on entry (unless given a
pre-computed `initial_state`), and on exit restores them if and only if the
raised exception is a `RollbackException`; the exception itself is *not*
suppressed (`__exit__` does not return `True`).  When `check_for_state_change`
is set, `some_state_changed` records whether the state observed on exit
(after any restoration) differs from the start state. -/

/-- Result record for one `with automatic_rollback(...)` scope. -/
structure AutomaticRollbackResult (σ : Type) (α : Type) where
  result : Except PyErr α
  finalState : σ
  someStateChanged : Bool
deriving Repr

/-- Translation of `automatic_rollback.__enter__` / `__exit__` over an
abstract rollbackable state `σ` compared by `stateEq` (Python compares
snapshots with `==`, i.e. by value).  The body is a state transformer that
either succeeds or raises; on a raise it reports the state the mutations left
behind, which `__exit__` restores only for rollback-safe errors. -/
def automatic_rollback {σ α : Type} (stateEq : σ → σ → Bool)
    (check_for_state_change : Bool) (initial_state : Option σ)
    (body : σ → Except PyErr α × σ) (s : σ) : AutomaticRollbackResult σ α :=
  let start_state := initial_state.getD s
  match body s with
  | (.error e, s1) =>
      let s2 := if e.isRollbackException then start_state else s1
      { result := .error e
        finalState := s2
        someStateChanged := check_for_state_change && !(stateEq s2 start_state) }
  | (.ok a, s1) =>
      { result := .ok a
        finalState := s1
        someStateChanged := check_for_state_change && !(stateEq s1 start_state) }

/-! ### Items and metadata (item.py)

Every value crossing a lens boundary is wrapped (`str_wrapper`, `int_wrapper`,
`list_wrapper`) so that a `_meta_data` property bag can be attached.  The
embedding bakes the bag into the item; `enable_meta_data` is then the
identity (a fresh value simply carries an empty bag).  The reader reference
stored in `concrete_input_reader` is modelled by its underlying string: the
only uses are `ConcreteInputReader(meta.concrete_input_reader)` followed by
`set_pos(meta.concrete_start_position)`, which depend on the string alone. -/

/-- Property bag carried by every item (the `_meta_data` fields the core
reads and writes; `lens` back-references and `singleton_meta_data` belong to
features outside the fragment). -/
structure Meta where
  concrete_input_reader : Option (List Char) := none
  concrete_start_position : Option Nat := none
  concrete_end_position : Option Nat := none
  label : Option (List Char) := none
  attr_label : Option (List Char) := none
  is_label : Bool := false
deriving Repr, DecidableEq

/-- Python value together with its metadata bag: the wrapped `str`, `int` and
`list` primitives of item.py. -/
inductive PyItem where
  | str (chars : List Char) (meta : Meta)
  | int (val : Int) (meta : Meta)
  | list (items : List PyItem) (meta : Meta)
deriving Repr

/-- Metadata bag of an item. -/
def PyItem.meta : PyItem → Meta
  | .str _ m => m
  | .int _ m => m
  | .list _ m => m

/-- Replaces the metadata bag of an item. -/
def PyItem.withMeta : PyItem → Meta → PyItem
  | .str s _, m => .str s m
  | .int n _, m => .int n m
  | .list xs _, m => .list xs m

mutual

/-- Python `==` on wrapped values: the wrappers inherit the value equality of
the underlying type, so metadata never takes part in comparisons. -/
def pyValEq : PyItem → PyItem → Bool
  | .str a _, .str b _ => a == b
  | .int a _, .int b _ => a == b
  | .list a _, .list b _ => pyValListEq a b
  | _, _ => false

/-- Python `==` on lists of wrapped values (element-wise). -/
def pyValListEq : List PyItem → List PyItem → Bool
  | [], [] => true
  | x :: xs, y :: ys => pyValEq x y && pyValListEq xs ys
  | _, _ => false

end

/-- Python decimal representation of an integer (`str(n)` for ints). -/
def pyIntRepr (n : Int) : List Char :=
  (toString n).toList

mutual

/-- Python `repr` of a wrapped value, as used by `str` on lists.  String
escaping is not reproduced (no claim exercises it). -/
def pyRepr : PyItem → List Char
  | .str s _ => '\'' :: s ++ ['\'']
  | .int n _ => pyIntRepr n
  | .list xs _ => '[' :: pyReprList xs ++ [']']

/-- Comma-separated `repr`s of the elements of a list value. -/
def pyReprList : List PyItem → List Char
  | [] => []
  | [x] => pyRepr x
  | x :: xs => pyRepr x ++ ',' :: ' ' :: pyReprList xs

end

/-- Python `str(item)` on a wrapped value (base_lenses.py line 461 applies it
to non-container items before PUT proper). -/
def pyStr : PyItem → List Char
  | .str s _ => s
  | .int n _ => pyIntRepr n
  | .list xs _ => '[' :: pyReprList xs ++ [']']

/-- Digit test used by the `int()` model. -/
def pyIsDigit (c : Char) : Bool := '0' ≤ c && c ≤ '9'

/-- Numeric value of the digits of a string. -/
def pyDigitsVal (cs : List Char) : Nat :=
  cs.foldl (fun acc c => acc * 10 + (c.toNat - '0'.toNat)) 0

/-- Python `int(s)` on a string: optional surrounding whitespace, an optional
sign, then at least one digit; anything else raises `ValueError` (fatal).
Underscore separators are not reproduced. -/
def pyIntOfString (s : List Char) : Except PyErr Int :=
  let t := (s.dropWhile (· == ' ')).reverse.dropWhile (· == ' ') |>.reverse
  match t with
  | '-' :: ds => if ds ≠ [] && ds.all pyIsDigit then .ok (-(pyDigitsVal ds : Int)) else .error .fatal
  | '+' :: ds => if ds ≠ [] && ds.all pyIsDigit then .ok (pyDigitsVal ds : Int) else .error .fatal
  | ds => if ds ≠ [] && ds.all pyIsDigit then .ok (pyDigitsVal ds : Int) else .error .fatal

/-! ### The lens data model (base_lenses.py `Lens.__init__`) -/

/-- Native types a lens in the fragment may carry (`type=str`, `type=int`,
`type=list`).  A `list` type makes the lens a container lens. -/
inductive LensTy where
  | tStr
  | tInt
  | tList
deriving Repr, DecidableEq

/-- Container alignment modes (containers.py module constants). -/
inductive AlignMode where
  | MODEL
  | SOURCE
  | LABEL
deriving Repr, DecidableEq

/-- Modes of the `Empty` lens. -/
inductive EmptyMode where
  | START_OF_TEXT
  | END_OF_TEXT
deriving Repr, DecidableEq

/-- Attributes every lens carries after `Lens.__init__`: the optional native
type, the default output, and the option bag (restricted to the options the
fragment uses: `label`, `is_label`, `alignment`). -/
structure Options where
  type : Option LensTy := none
  default : Option (List Char) := none
  label : Option (List Char) := none
  is_label : Bool := false
  alignment : Option AlignMode := none
deriving Repr, DecidableEq

/-- The embedded lens algebra.  Each constructor mirrors one class of
base_lenses.py and stores the attributes its `__init__` keeps. -/
inductive PLens where
  | anyOf (valid_chars : List Char) (negate : Bool) (opts : Options)
  | literal (literal_string : List Char) (opts : Options)
  | empty (mode : Option EmptyMode) (opts : Options)
  | and (lenses : List PLens) (opts : Options)
  | group (sub : PLens) (opts : Options)
  | repeatLens (sub : PLens) (min_count : Nat) (max_count : Option Nat) (opts : Options)
deriving Repr

/-- Option record of a lens. -/
def PLens.opts : PLens → Options
  | .anyOf _ _ o => o
  | .literal _ o => o
  | .empty _ o => o
  | .and _ o => o
  | .group _ o => o
  | .repeatLens _ _ _ o => o

/-- Translation of `Lens.has_type`: the lens is a STORE lens. -/
def PLens.has_type (l : PLens) : Bool := l.opts.type.isSome

/-- Tells whether the lens type has an associated container class
(`ContainerFactory.get_container_class`); in the fragment only `list`. -/
def PLens.isContainerType (l : PLens) : Bool := l.opts.type == some .tList

/-! ### Lens constructors

`Lens.__init__` rejects a lens given both a `type` and a `default`, and
coerces the type to `str` when `is_label` or `label` is set on an untyped
lens.  The `mk*` functions below translate each subclass `__init__`,
including the attribute assignments they perform after calling `super()`. -/

/-- Translation of `Lens.__init__`: builds the common attribute record,
raising (fatal `Exception`) when both a type and a default are supplied. -/
def lensInit (type : Option LensTy) (default : Option (List Char))
    (label : Option (List Char)) (is_label : Bool) (alignment : Option AlignMode) :
    Except PyErr Options :=
  if type.isSome && default.isSome then .error .fatal
  else
    let type := if type.isNone && (is_label || label.isSome) then some .tStr else type
    .ok { type := type, default := default, label := label,
          is_label := is_label, alignment := alignment }

/-- Translation of `AnyOf.__init__`. -/
def mkAnyOf (valid_chars : List Char) (negate : Bool) (type : Option LensTy)
    (default : Option (List Char)) (label : Option (List Char)) (is_label : Bool)
    (alignment : Option AlignMode) : Except PyErr PLens :=
  match lensInit type default label is_label alignment with
  | .error e => .error e
  | .ok o => .ok (.anyOf valid_chars negate o)

/-- Translation of `Literal.__init__`: asserts a non-empty literal string and,
when untyped, sets the default output to the literal itself. -/
def mkLiteral (literal_string : List Char) (type : Option LensTy)
    (default : Option (List Char)) (label : Option (List Char)) (is_label : Bool)
    (alignment : Option AlignMode) : Except PyErr PLens :=
  if literal_string.isEmpty then .error .fatal else
  match lensInit type default label is_label alignment with
  | .error e => .error e
  | .ok o =>
    let o := if o.type.isNone then { o with default := some literal_string } else o
    .ok (.literal literal_string o)

/-- Translation of `Empty.__init__`: after the common initialisation it
unconditionally assigns `self.default = ""`. -/
def mkEmpty (mode : Option EmptyMode) (type : Option LensTy)
    (default : Option (List Char)) (label : Option (List Char)) (is_label : Bool)
    (alignment : Option AlignMode) : Except PyErr PLens :=
  match lensInit type default label is_label alignment with
  | .error e => .error e
  | .ok o => .ok (.empty mode { o with default := some [] })

/-- Translation of `Group.__init__`: asserts that a type was set. -/
def mkGroup (sub : PLens) (type : Option LensTy) (default : Option (List Char))
    (label : Option (List Char)) (is_label : Bool) (alignment : Option AlignMode) :
    Except PyErr PLens :=
  match lensInit type default label is_label alignment with
  | .error e => .error e
  | .ok o =>
    if o.type.isNone then .error .fatal else
    .ok (.group sub o)

/-- Translation of `Repeat.__init__`: asserts `max_count > min_count` when a
maximum is given (`min_count >= 0` holds by the `Nat` type). -/
def mkRepeat (sub : PLens) (min_count : Nat) (max_count : Option Nat)
    (type : Option LensTy) (default : Option (List Char)) (label : Option (List Char))
    (is_label : Bool) (alignment : Option AlignMode) : Except PyErr PLens :=
  match lensInit type default label is_label alignment with
  | .error e => .error e
  | .ok o =>
    match max_count with
    | some m =>
      if m > min_count then .ok (.repeatLens sub min_count max_count o)
      else .error .fatal
    | none => .ok (.repeatLens sub min_count max_count o)

/-- Translation of `And.__init__`: flattens sub-lenses that are themselves
`And`s (one level, as `extend_sublenses` is applied to each argument). -/
def mkAnd (lenses : List PLens) (type : Option LensTy) (default : Option (List Char))
    (label : Option (List Char)) (is_label : Bool) (alignment : Option AlignMode) :
    Except PyErr PLens :=
  match lensInit type default label is_label alignment with
  | .error e => .error e
  | .ok o =>
    let flat := lenses.flatMap fun l =>
      match l with
      | .and subs _ => subs
      | other => [other]
    .ok (.and flat o)

/-- Holds when a lens record carries both a type and a default value
(`has_value(type) and has_value(default)` in the source's terms). -/
def Options.hasBothTypeAndDefault (o : Options) : Bool :=
  o.type.isSome && o.default.isSome

/-! ### Containers (containers.py)

The fragment uses the list container (`ListContainer`), which is also the
machinery behind `DictContainer`.  Its rollbackable state is the pair
`[copy(container_item), _label]`; `_container_lens` and `_alignment_mode` are
set once by `set_container_lens` when a PUT wraps an item and are not part of
the snapshot. -/

/-- State of a containers.py `ListContainer`: the stored items, the
consumable label (always a string value when set), and the fields assigned by
`set_container_lens`. -/
structure ListContainer where
  container_item : List PyItem := []
  label : Option (List Char) := none
  alignment_mode : Option AlignMode := none
  container_lens_set : Bool := false
deriving Repr

/-- Translation of `ListContainer.store_item`: append. -/
def ListContainer.store_item (c : ListContainer) (item : PyItem) : ListContainer :=
  { c with container_item := c.container_item ++ [item] }

/-- Truthiness of an optional string label (`if label and self._label`,
`if not self._label`): present and non-empty. -/
def labelTruthy : Option (List Char) → Bool
  | some s => !s.isEmpty
  | none => false

/-- Translation of `AbstractContainer.set_label(label)` for the GET side
(`overwrite=False`): asserts the label item is a string, and raises when a
truthy label is already present alongside a truthy new one. -/
def ListContainer.set_label (c : ListContainer) (item : PyItem) :
    Except PyErr ListContainer :=
  match item with
  | .str s _ =>
      if labelTruthy (some s) && labelTruthy c.label then .error .fatal
      else .ok { c with label := some s }
  | _ => .error .fatal

/-- Translation of `set_label(label, overwrite=True)` as used by
`ContainerFactory.wrap_container` (no checks, copies the item's label). -/
def ListContainer.set_label_overwrite (c : ListContainer) (label : Option (List Char)) :
    ListContainer :=
  { c with label := label }

/-- Translation of `set_container_lens(lens)` for a list container: records
the association and defaults the alignment mode to `MODEL`. -/
def ListContainer.set_container_lens (c : ListContainer) (lens_alignment : Option AlignMode) :
    ListContainer :=
  { c with container_lens_set := true,
           alignment_mode := some (lens_alignment.getD .MODEL) }

/-- Translation of `ListContainer.is_fully_consumed`. -/
def ListContainer.is_fully_consumed (c : ListContainer) : Bool :=
  c.container_item.isEmpty

/-- Python `==` on the rollback snapshots `[container_item, _label]` of two
list containers (items compare by value; the wrappers ignore metadata). -/
def contStateEq (a b : ListContainer) : Bool :=
  pyValListEq a.container_item b.container_item && a.label == b.label

/-- Restores the rollbackable part of a container (`_set_state`): the items
and the label; the container-lens association survives, as in the source. -/
def ListContainer.restoreFrom (c snapshot : ListContainer) : ListContainer :=
  { c with container_item := snapshot.container_item, label := snapshot.label }

/-- Translation of `ListContainer.remove_item`, i.e. Python
`list.remove(item)`: drops the first element equal (by value) to the given
one, raising `ValueError` (fatal) when none matches. -/
def removeFirstValEq (x : PyItem) : List PyItem → Except PyErr (List PyItem)
  | [] => .error .fatal
  | y :: ys =>
      if pyValEq y x then .ok ys
      else do
        let ys' ← removeFirstValEq x ys
        .ok (y :: ys')

/-- Translation of containers.py `LARGE_INTEGER` (used to sort newly created
items last). -/
def LARGE_INTEGER : Nat := 0xFFFFFFFF

/-- Translation of the `get_key` closure of
`filter_and_sort_candidate_items`: the concrete start position when the item
has one, `LARGE_INTEGER` otherwise. -/
def sortKey (item : PyItem) : Nat :=
  item.meta.concrete_start_position.getD LARGE_INTEGER

/-- Translation of `AbstractContainer.filter_and_sort_candidate_items`.  A
lens with a static label selects the items carrying that label; otherwise the
alignment mode decides: `MODEL` keeps only the first item, `SOURCE` sorts all
items ascending by `get_key` (Python's `sorted` is stable; `insertionSort`
with the non-strict key order is the same stable sort), and any other mode —
including the unimplemented `LABEL` and an unset mode — raises a fatal
`Exception`. -/
def filter_and_sort_candidate_items (candidate_items : List PyItem)
    (lens_label : Option (List Char)) (alignment_mode : Option AlignMode) :
    Except PyErr (List PyItem) :=
  match lens_label with
  | some lbl =>
      .ok (candidate_items.filter fun item =>
        item.meta.label == some lbl || item.meta.attr_label == some lbl)
  | none =>
    match alignment_mode with
    | some .MODEL =>
        .ok (match candidate_items with
             | [] => []
             | x :: _ => [x])
    | some .SOURCE =>
        .ok (candidate_items.insertionSort fun x y => sortKey x ≤ sortKey y)
    | _ => .error .fatal

/-- Translation of `DictContainer.store_item`: an item without a label raises
`LensException`; otherwise the list container stores it. -/
def dictContainer_store_item (c : ListContainer) (item : PyItem) :
    Except PyErr ListContainer :=
  if item.meta.label.isNone then .error .lens
  else .ok (c.store_item item)

/-! ### Interpreter helpers (base_lenses.py, settings.py) -/

/-- Translation of settings.py `GlobalSettings.check_consumption` (the
process-wide default, `True`). -/
def check_consumption : Bool := true

/-- Translation of `AnyOf._is_valid_char`. -/
def isValidChar (valid_chars : List Char) (negate : Bool) (c : Char) : Bool :=
  if negate then !(valid_chars.contains c) else valid_chars.contains c

/-- Python `isinstance(item, type)` for the wrapped primitives against a lens
type (the wrappers are subclasses of their primitive). -/
def isInstance (item : PyItem) (t : LensTy) : Bool :=
  match item, t with
  | .str .., .tStr => true
  | .int .., .tInt => true
  | .list .., .tList => true
  | _, _ => false

/-- Translation of the GET-side cast `item = self.type(item)` (applied when
the item is not already an instance): `str()`, `int()` and `list()` on a
wrapped value, raising the corresponding Python error as fatal. -/
def castToType (t : LensTy) (item : PyItem) : Except PyErr PyItem :=
  if isInstance item t then .ok item
  else
    match t, item with
    | .tStr, it => .ok (.str (pyStr it) {})
    | .tInt, .str s _ =>
      match pyIntOfString s with
      | .error e => .error e
      | .ok n => .ok (.int n {})
    | .tInt, _ => .error .fatal
    | .tList, .str s _ => .ok (.list (s.map fun c => .str [c] {}) {})
    | .tList, _ => .error .fatal

/-- Translation of `Lens._process_outgoing_item` for the fragment: marks the
item as a label (`is_label`) or stamps the static label.  The `auto_list` and
`combine_chars` branches guard on options outside the fragment. -/
def processOutgoingItem (l : PLens) (item : PyItem) : PyItem :=
  if l.opts.is_label then item.withMeta { item.meta with is_label := true }
  else
    match l.opts.label with
    | some lbl => item.withMeta { item.meta with label := some lbl }
    | none => item

/-- State-change test of a tentative scope over the pair
`(concrete_input_reader, current_container)`: `get_rollbackables_state` skips
`None` targets, keeps the reader's position and the container's
`[items, label]` snapshot, and the scope compares snapshots by value. -/
def rollbackablesStateChanged (r? r?' : Option ConcreteInputReader)
    (c? c?' : Option ListContainer) : Bool :=
  (match r?, r?' with
   | some r, some r' => r.position != r'.position
   | _, _ => false) ||
  (match c?, c?' with
   | some c, some c' => !contStateEq c c'
   | _, _ => false)

/-! ### The GET/PUT engine (base_lenses.py)

A mutual, fuel-indexed interpreter.  Every function opens with a fuel match
and hands the decremented fuel to every recursive call, so a diverging Python
loop is exactly a computation that yields `.error .fuelOut` at every fuel.
Rollback-safe failures return `Except.error` without a state, and each
tentative scope resumes from the snapshot value it holds — the pure image of
`automatic_rollback`'s restore. -/

mutual

/-- Translation of `Lens.get` (the wrapper): container creation for
container-typed lenses, GET proper, the type cast, source metadata, the
container label, and outgoing item processing.  The top-level full-consumption
check lives in `lensGetTop`, since it fires only when the concrete input was
passed as a string. -/
def lensGet : Nat → PLens → ConcreteInputReader → Option ListContainer →
    Except PyErr (Option PyItem × ConcreteInputReader × Option ListContainer)
  | 0, _, _, _ => .error .fuelOut
  | fuel+1, l, r, c? =>
    let concrete_start_position := r.position
    if l.isContainerType then
      match lensGet.proper fuel l r (some {}) with
      | .error e => .error e
      | .ok (some _, _, _) => .error .fatal
      | .ok (none, r1, lensCont?) =>
        let lensCont := lensCont?.getD {}
        let item : PyItem := .list lensCont.container_item
          { concrete_input_reader := some r.string
            concrete_start_position := some concrete_start_position
            concrete_end_position := some r1.position
            label := lensCont.label }
        .ok (some (processOutgoingItem l item), r1, c?)
    else
      match lensGet.proper fuel l r c? with
      | .error e => .error e
      | .ok (item?, r1, c1?) =>
        if l.has_type then
          match item? with
          | none => .error .fatal
          | some item0 =>
            match (match l.opts.type with
                   | some t => castToType t item0
                   | none => .ok item0) with
            | .error e => .error e
            | .ok item1 =>
              let item2 := item1.withMeta
                { item1.meta with
                  concrete_input_reader := some r.string
                  concrete_start_position := some concrete_start_position
                  concrete_end_position := some r1.position }
              .ok (some (processOutgoingItem l item2), r1, c1?)
        else
          .ok (item?.map (processOutgoingItem l), r1, c1?)

/-- Translation of the `_get` methods (GET proper) of each lens class. -/
def lensGet.proper : Nat → PLens → ConcreteInputReader → Option ListContainer →
    Except PyErr (Option PyItem × ConcreteInputReader × Option ListContainer)
  | 0, _, _, _ => .error .fuelOut
  | fuel+1, l, r, c? =>
    match l with
    | .anyOf valid_chars negate opts =>
      match r.consume_char with
      | (.error _, _) => .error .lens
      | (.ok ch, r') =>
        if isValidChar valid_chars negate ch then
          .ok (if opts.type.isSome then some (.str [ch] {}) else none, r', c?)
        else .error .lens
    | .literal s opts =>
      match r.consume_string s.length with
      | (.error _, _) => .error .lens
      | (.ok got, r') =>
        if got == s then
          .ok (if opts.type.isSome then some (.str got {}) else none, r', c?)
        else .error .lens
    | .empty mode opts =>
      let pass : Except PyErr (Option PyItem × ConcreteInputReader × Option ListContainer) :=
        .ok (if opts.type.isSome then some (.str [] {}) else none, r, c?)
      match mode with
      | some .START_OF_TEXT => if r.position != 0 then .error .lens else pass
      | some .END_OF_TEXT => if !r.is_fully_consumed then .error .lens else pass
      | none => pass
    | .and lenses _ =>
      match andGetList fuel lenses r c? with
      | .error e => .error e
      | .ok (r', c?') => .ok (none, r', c?')
    | .group sub _ => lensGet fuel sub r c?
    | .repeatLens sub min_count max_count _ =>
      match repeatGetLoop fuel sub max_count r c? 0 with
      | .error e => .error e
      | .ok (r', c?', no_got) =>
        if no_got < min_count then .error .tooFewIterations
        else .ok (none, r', c?')

/-- Translation of `Lens.container_get` together with
`AbstractContainer.get_and_store_item`: with a container, GET the sub-lens
and store (or label) any returned item; without one, GET and assert nothing
was returned. -/
def containerGet : Nat → PLens → ConcreteInputReader → Option ListContainer →
    Except PyErr (ConcreteInputReader × Option ListContainer)
  | 0, _, _, _ => .error .fuelOut
  | fuel+1, l, r, c? =>
    match c? with
    | some c =>
      match lensGet fuel l r (some c) with
      | .error e => .error e
      | .ok (item?, r', c1?) =>
        let c1 := c1?.getD c
        match item? with
        | none => .ok (r', some c1)
        | some item =>
          if item.meta.is_label then
            match c1.set_label item with
            | .error e => .error e
            | .ok c2 => .ok (r', some c2)
          else .ok (r', some (c1.store_item item))
    | none =>
      match lensGet fuel l r none with
      | .error e => .error e
      | .ok (some _, _, _) => .error .fatal
      | .ok (none, r', _) => .ok (r', none)

/-- Sequential GETs of `And._get` over the sub-lenses. -/
def andGetList : Nat → List PLens → ConcreteInputReader → Option ListContainer →
    Except PyErr (ConcreteInputReader × Option ListContainer)
  | 0, _, _, _ => .error .fuelOut
  | fuel+1, lenses, r, c? =>
    match lenses with
    | [] => .ok (r, c?)
    | lens :: rest =>
      match containerGet fuel lens r c? with
      | .error e => .error e
      | .ok (r', c?') => andGetList fuel rest r' c?'

/-- Translation of the `while True` loop of `Repeat._get`: iterate the
sub-lens in a tentative scope that also reports state change; stop on a
`LensException` (restoring the iteration snapshot), when no state changed, or
when `max_count` successful iterations are reached. -/
def repeatGetLoop : Nat → PLens → Option Nat → ConcreteInputReader →
    Option ListContainer → Nat →
    Except PyErr (ConcreteInputReader × Option ListContainer × Nat)
  | 0, _, _, _, _, _ => .error .fuelOut
  | fuel+1, sub, max_count, r, c?, no_got =>
    match containerGet fuel sub r c? with
    | .error e =>
      if e.isLensException then .ok (r, c?, no_got) else .error e
    | .ok (r', c?') =>
      if rollbackablesStateChanged (some r) (some r') c? c?' then
        let no_got' := no_got + 1
        if max_count == some no_got' then .ok (r', c?', no_got')
        else repeatGetLoop fuel sub max_count r' c?' no_got'
      else .ok (r', c?', no_got)

/-- Translation of `Lens.get_and_discard`: GET, then revert the container to
its entry state while keeping the reader consumption. -/
def getAndDiscard : Nat → PLens → ConcreteInputReader → Option ListContainer →
    Except PyErr (ConcreteInputReader × Option ListContainer)
  | 0, _, _, _ => .error .fuelOut
  | fuel+1, l, r, c? =>
    match lensGet fuel l r c? with
    | .error e => .error e
    | .ok (_, r', c?') =>
      match c?, c?' with
      | some c, some c' => .ok (r', some (c'.restoreFrom c))
      | _, _ => .ok (r', c?)

/-- Translation of `Lens.put` (the wrapper): the untyped default shortcut,
the typed item path (metadata alignment, consuming and discarding from a
misaligned outer reader, wrapping container items), and the
consume-from-container path.  The top-level full-consumption check lives in
`lensPutTop`. -/
def lensPut : Nat → PLens → Option PyItem → Option ConcreteInputReader →
    Option ListContainer →
    Except PyErr (List Char × Option ConcreteInputReader × Option ListContainer)
  | 0, _, _, _, _ => .error .fuelOut
  | fuel+1, l, item?, r?, c? =>
    if item?.isSome && c?.isSome then .error .fatal
    else if !l.has_type then
      if r?.isNone && l.opts.default.isSome then
        .ok (l.opts.default.getD [], r?, c?)
      else lensPut.proper fuel l item? r? c?
    else
      match item? with
      | some item =>
        match l.opts.type with
        | none => .error .fatal
        | some ty =>
          if !isInstance item ty then .error .lens
          else
            match item.meta.concrete_input_reader with
            | some src =>
              match item.meta.concrete_start_position with
              | none => .error .fatal
              | some startPos =>
                let item_input_reader : ConcreteInputReader := ⟨src, startPos⟩
                let aligned := match r? with
                               | some r => item_input_reader.is_aligned_with r
                               | none => false
                if aligned then
                  match lensPut.typedBody fuel l item r? with
                  | .error e => .error e
                  | .ok (out, r1?) => .ok (out, r1?, none)
                else
                  match (match r? with
                         | some r =>
                           match getAndDiscard fuel l r none with
                           | .error e => .error e
                           | .ok (r1, _) => .ok (some r1)
                         | none => .ok none :
                         Except PyErr (Option ConcreteInputReader)) with
                  | .error e => .error e
                  | .ok r1? =>
                    match lensPut.typedBody fuel l item (some item_input_reader) with
                    | .error e => .error e
                    | .ok (out, _) => .ok (out, r1?, none)
            | none =>
              match (match r? with
                     | some r =>
                       match getAndDiscard fuel l r none with
                       | .error e => .error e
                       | .ok (r1, _) => .ok (some r1)
                     | none => .ok none :
                     Except PyErr (Option ConcreteInputReader)) with
              | .error e => .error e
              | .ok r1? =>
                match lensPut.typedBody fuel l item none with
                | .error e => .error e
                | .ok (out, _) => .ok (out, r1?, none)
      | none =>
        match c? with
        | some c =>
          match consumeAndPutItem fuel c l r? with
          | .error e => .error e
          | .ok (out, r?', c') => .ok (out, r?', some c')
        | none => .error .lens

/-- Translation of `Lens.put` lines 445-477: wrap a container-kind item
(`ContainerFactory.wrap_container` + `set_container_lens`) or cast the item
to a string, run PUT proper, then enforce container full consumption. -/
def lensPut.typedBody : Nat → PLens → PyItem → Option ConcreteInputReader →
    Except PyErr (List Char × Option ConcreteInputReader)
  | 0, _, _, _ => .error .fuelOut
  | fuel+1, l, item, r? =>
    match item with
    | .list items meta =>
      let cont := (({ container_item := items : ListContainer }).set_label_overwrite
          meta.label).set_container_lens l.opts.alignment
      match lensPut.proper fuel l none r? (some cont) with
      | .error e => .error e
      | .ok (out, r1?, c1?) =>
        let c1 := c1?.getD cont
        if check_consumption && !c1.is_fully_consumed then .error .notFullyConsumed
        else .ok (out, r1?)
    | _ =>
      match lensPut.proper fuel l (some (.str (pyStr item) {})) r? none with
      | .error e => .error e
      | .ok (out, r1?, _) => .ok (out, r1?)

/-- Translation of the `_put` methods (PUT proper) of each lens class. -/
def lensPut.proper : Nat → PLens → Option PyItem → Option ConcreteInputReader →
    Option ListContainer →
    Except PyErr (List Char × Option ConcreteInputReader × Option ListContainer)
  | 0, _, _, _, _ => .error .fuelOut
  | fuel+1, l, item?, r?, c? =>
    match l with
    | .anyOf valid_chars negate opts =>
      if opts.type.isNone then
        if item?.isSome then .error .fatal
        else
          match r? with
          | some r =>
            let concrete_start_position := r.position
            match lensGet.proper fuel l r c? with
            | .error e => .error e
            | .ok (_, r', _) =>
              .ok (r'.get_consumed_string concrete_start_position, some r', c?)
          | none => .error .noDefault
      else
        match (match r? with
               | some r =>
                 match lensGet fuel l r none with
                 | .error e => .error e
                 | .ok (_, r', _) => .ok (some r')
               | none => .ok r? :
               Except PyErr (Option ConcreteInputReader)) with
        | .error e => .error e
        | .ok r1? =>
          match item? with
          | some (.str [ch] _) =>
            if isValidChar valid_chars negate ch then .ok ([ch], r1?, c?)
            else .error .lens
          | _ => .error .lens
    | .literal s opts =>
      if opts.type.isNone then
        if item?.isSome then .error .fatal
        else
          match r? with
          | some r =>
            let concrete_start_position := r.position
            match lensGet.proper fuel l r c? with
            | .error e => .error e
            | .ok (_, r', _) =>
              .ok (r'.get_consumed_string concrete_start_position, some r', c?)
          | none => .error .noDefault
      else
        match (match r? with
               | some r =>
                 match lensGet fuel l r none with
                 | .error e => .error e
                 | .ok (_, r', _) => .ok (some r')
               | none => .ok r? :
               Except PyErr (Option ConcreteInputReader)) with
        | .error e => .error e
        | .ok r1? =>
          match item? with
          | some (.str t _) => if t == s then .ok (t, r1?, c?) else .error .lens
          | _ => .error .lens
    | .empty _ opts =>
      if opts.type.isSome then
        match item? with
        | some (.str [] _) => .ok ([], r?, c?)
        | _ => .error .lens
      else if item?.isSome then .error .lens
      else if r?.isNone then .error .fatal
      else .ok ([], r?, c?)
    | .and lenses _ =>
      if item?.isSome then .error .fatal
      else andPutList fuel lenses r? c? []
    | .group sub _ => lensPut fuel sub item? r? c?
    | .repeatLens sub min_count max_count _ =>
      repeatPut fuel sub min_count max_count r? c?

/-- Sequential PUTs of `And._put` over the sub-lenses, concatenating their
output. -/
def andPutList : Nat → List PLens → Option ConcreteInputReader →
    Option ListContainer → List Char →
    Except PyErr (List Char × Option ConcreteInputReader × Option ListContainer)
  | 0, _, _, _, _ => .error .fuelOut
  | fuel+1, lenses, r?, c?, acc =>
    match lenses with
    | [] => .ok (acc, r?, c?)
    | lens :: rest =>
      match lensPut fuel lens none r? c? with
      | .error e => .error e
      | .ok (out, r?', c?') => andPutList fuel rest r?' c?' (acc ++ out)

/-- Translation of `Lens.container_put`: a typed sub-lens plucks its item
from the enclosing container (which must exist), an untyped one is PUT with
the arguments passed through. -/
def containerPut : Nat → PLens → Option ConcreteInputReader → Option ListContainer →
    Except PyErr (List Char × Option ConcreteInputReader × Option ListContainer)
  | 0, _, _, _ => .error .fuelOut
  | fuel+1, lens, r?, c? =>
    if lens.has_type then
      match c? with
      | none => .error .fatal
      | some c =>
        match consumeAndPutItem fuel c lens r? with
        | .error e => .error e
        | .ok (out, r?', c') => .ok (out, r?', some c')
    else lensPut fuel lens none r? c?

/-- Translation of `AbstractContainer.consume_and_put_item`: the `is_label`
lens consumes the container label; otherwise candidates are filtered, sorted
and tried in order. -/
def consumeAndPutItem : Nat → ListContainer → PLens → Option ConcreteInputReader →
    Except PyErr (List Char × Option ConcreteInputReader × ListContainer)
  | 0, _, _, _ => .error .fuelOut
  | fuel+1, c, lens, r? =>
    if !lens.has_type then .error .fatal
    else if !c.container_lens_set then .error .fatal
    else if lens.opts.is_label then
      if !labelTruthy c.label then .error .noTokenToConsume
      else
        match lensPut fuel lens (some (.str (c.label.getD []) {})) r? none with
        | .error e => .error e
        | .ok (out, r?', _) => .ok (out, r?', { c with label := none })
    else
      match filter_and_sort_candidate_items c.container_item lens.opts.label
          c.alignment_mode with
      | .error e => .error e
      | .ok candidates => candidatesLoop fuel c lens r? candidates

/-- Candidate loop of `consume_and_put_item`: each candidate is tried inside
a tentative scope over the reader; on success the item is removed, on a
`LensException` the reader snapshot is restored and the next candidate tried;
no candidate left raises `NoTokenToConsumeException`. -/
def candidatesLoop : Nat → ListContainer → PLens → Option ConcreteInputReader →
    List PyItem →
    Except PyErr (List Char × Option ConcreteInputReader × ListContainer)
  | 0, _, _, _, _ => .error .fuelOut
  | fuel+1, c, lens, r?, cands =>
    match cands with
    | [] => .error .noTokenToConsume
    | cand :: rest =>
      match lensPut fuel lens (some cand) r? none with
      | .ok (out, r?', _) =>
        match removeFirstValEq cand c.container_item with
        | .error e => .error e
        | .ok items' => .ok (out, r?', { c with container_item := items' })
      | .error e =>
        if e.isLensException then candidatesLoop fuel c lens r? rest
        else .error e

/-- Translation of `Repeat._put`: phase A PUTs with the reader and then
without it, phase C consumes and discards leftover input up to `max_count`,
then the minimum-iterations checks run. -/
def repeatPut : Nat → PLens → Nat → Option Nat → Option ConcreteInputReader →
    Option ListContainer →
    Except PyErr (List Char × Option ConcreteInputReader × Option ListContainer)
  | 0, _, _, _, _, _ => .error .fuelOut
  | fuel+1, sub, min_count, max_count, r?, c? =>
    match repeatPutLoop fuel sub max_count r? c? 0 0 [] with
    | .error e => .error e
    | .ok (out1, r1?, c1?, noPut1, noGot1, brokeMax1) =>
      match (if r?.isSome && !brokeMax1 then
               match repeatPutLoop fuel sub max_count none c1? noPut1 noGot1 out1 with
               | .error e => .error e
               | .ok (o, _, c2?, np, ng, _) => .ok (o, r1?, c2?, np, ng)
             else .ok (out1, r1?, c1?, noPut1, noGot1) :
             Except PyErr (List Char × Option ConcreteInputReader ×
               Option ListContainer × Nat × Nat)) with
      | .error e => .error e
      | .ok (out2, r2?, c2?, noPut2, noGot2) =>
        match (match r2? with
               | some r =>
                 if noGot2 < max_count.getD 0 then
                   match repeatDiscardLoop fuel sub max_count r c2? noGot2 with
                   | .error e => .error e
                   | .ok (r3, c3?, ng) => .ok (some r3, c3?, ng)
                 else .ok (r2?, c2?, noGot2)
               | none => .ok (r2?, c2?, noGot2) :
               Except PyErr (Option ConcreteInputReader × Option ListContainer × Nat)) with
        | .error e => .error e
        | .ok (r3?, c3?, noGot3) =>
          if noPut2 < min_count then .error .tooFewIterations
          else if r3?.isSome && noGot3 < min_count then .error .fatal
          else .ok (out2, r3?, c3?)

/-- Phase-A `while True` loop of `Repeat._put` for one input reader (the real
one, then `None`): container-PUT the sub-lens in a tentative scope, stopping
on failure, on no state change, or when `no_put` reaches `max_count` (the
last also aborts the following rounds, reported by the boolean). -/
def repeatPutLoop : Nat → PLens → Option Nat → Option ConcreteInputReader →
    Option ListContainer → Nat → Nat → List Char →
    Except PyErr (List Char × Option ConcreteInputReader × Option ListContainer ×
      Nat × Nat × Bool)
  | 0, _, _, _, _, _, _, _ => .error .fuelOut
  | fuel+1, sub, max_count, inR?, c?, no_put, no_got, acc =>
    match containerPut fuel sub inR? c? with
    | .error e =>
      if e.isLensException then .ok (acc, inR?, c?, no_put, no_got, false)
      else .error e
    | .ok (put, inR?', c?') =>
      if !rollbackablesStateChanged inR? inR?' c? c?' then
        .ok (acc, inR?', c?', no_put, no_got, false)
      else
        let no_put' := no_put + 1
        let no_got' := if inR?.isSome then no_got + 1 else no_got
        let acc' := acc ++ put
        if some no_put' == max_count then .ok (acc', inR?', c?', no_put', no_got', true)
        else repeatPutLoop fuel sub max_count inR?' c?' no_put' no_got' acc'

/-- Phase-C loop of `Repeat._put`: GET-and-discard remaining repetitions in a
tentative scope, stopping on failure, no state change, or `max_count`
consumptions. -/
def repeatDiscardLoop : Nat → PLens → Option Nat → ConcreteInputReader →
    Option ListContainer → Nat →
    Except PyErr (ConcreteInputReader × Option ListContainer × Nat)
  | 0, _, _, _, _, _ => .error .fuelOut
  | fuel+1, sub, max_count, r, c?, no_got =>
    match getAndDiscard fuel sub r c? with
    | .error e =>
      if e.isLensException then .ok (r, c?, no_got) else .error e
    | .ok (r', c?') =>
      if !rollbackablesStateChanged (some r) (some r') c? c?' then .ok (r', c?', no_got)
      else
        let no_got' := no_got + 1
        if max_count == some no_got' then .ok (r', c?', no_got')
        else repeatDiscardLoop fuel sub max_count r' c?' no_got'

end

/-- Behaviour of `Lens.get` when called with a string (the top-level entry):
normalise to a reader and additionally enforce full consumption of the input.
In the source the check sits just before `_process_outgoing_item`; the
reordering is unobservable because outgoing processing is pure and total. -/
def lensGetTop (fuel : Nat) (l : PLens) (s : List Char) :
    Except PyErr (Option PyItem) :=
  match lensGet fuel l (ConcreteInputReader.ofString s) none with
  | .error e => .error e
  | .ok (item?, r', _) =>
    if check_consumption && !r'.is_fully_consumed then .error .notFullyConsumed
    else .ok item?

/-- Behaviour of `Lens.put` when called with an optional input string (the
top-level entry): normalise to a reader and enforce full consumption of the
original outer reader. -/
def lensPutTop (fuel : Nat) (l : PLens) (item? : Option PyItem)
    (s? : Option (List Char)) : Except PyErr (List Char) :=
  match lensPut fuel l item? (s?.map ConcreteInputReader.ofString) none with
  | .error e => .error e
  | .ok (out, r?', _) =>
    match s?, r?' with
    | some _, some r' =>
      if check_consumption && !r'.is_fully_consumed then .error .notFullyConsumed
      else .ok out
    | _, _ => .ok out

/-! ### The Until lens (core_lenses.py)

`Until` is parameterised by an arbitrary stopping lens, so its functions sit
outside the engine and call `lensGet` on that lens. -/

/-- Translation of the `while True` loop of `Until._get`: try the stopping
lens (rolling its consumption back unless `include_lens`), and otherwise
consume one character, stopping at the end of the input. -/
def untilGetLoop (fuel : Nat) (stopping_lens : PLens) (include_lens : Bool)
    (r : ConcreteInputReader) : Except PyErr ConcreteInputReader :=
  match fuel with
  | 0 => .error .fuelOut
  | fuel+1 =>
    match lensGet fuel stopping_lens r none with
    | .ok (_, r', _) => .ok (if include_lens then r' else r)
    | .error e =>
      if !e.isLensException then .error e
      else
        match r.consume_char with
        | (.error _, _) => .ok r
        | (.ok _, r2) => untilGetLoop fuel stopping_lens include_lens r2

/-- Translation of `Until._get`: run the loop from the initial position, fail
unless at least one character was parsed, and return the consumed slice when
the lens is STORE (or `force_return` is set by `Until._put`). -/
def untilGet (fuel : Nat) (stopping_lens : PLens) (include_lens : Bool)
    (has_type : Bool) (force_return : Bool) (r : ConcreteInputReader) :
    Except PyErr (Option (List Char) × ConcreteInputReader) :=
  match untilGetLoop fuel stopping_lens include_lens r with
  | .error e => .error e
  | .ok r' =>
    let parsed_chars := r'.get_consumed_string r.position
    if parsed_chars.isEmpty then .error .lens
    else .ok (if has_type || force_return then some parsed_chars else none, r')

/-- Python `len(item)` on a wrapped value; an int has no length
(`TypeError`, fatal). -/
def pyLen : PyItem → Except PyErr Nat
  | .str s _ => .ok s.length
  | .list xs _ => .ok xs.length
  | .int _ _ => .error .fatal

/-- Translation of `Until._put`.  The STORE branch's guard is translated
verbatim: `not isinstance(item, str) and len(item) > 0`, with Python's
precedence, raises only for a non-string item of positive length; then input
is consumed via `self.get` when a reader is present (metadata and the `str`
cast of the wrapper leave the reader effect of `untilGet` unchanged), and the
item itself is the output. -/
def untilPut (fuel : Nat) (stopping_lens : PLens) (include_lens : Bool)
    (has_type : Bool) (item? : Option PyItem) (r? : Option ConcreteInputReader) :
    Except PyErr (PyItem × Option ConcreteInputReader) :=
  if has_type then
    match (match item? with
           | some (.str ..) => .ok false
           | some it =>
             match pyLen it with
             | .error e => .error e
             | .ok n => .ok (n > 0)
           | none => .error .fatal :
           Except PyErr Bool) with
    | .error e => .error e
    | .ok bad =>
      if bad then .error .fatal
      else
        match item? with
        | none => .error .fatal
        | some it =>
          match r? with
          | some r =>
            match untilGet fuel stopping_lens include_lens true false r with
            | .error e => .error e
            | .ok (_, r') => .ok (it, some r')
          | none => .ok (it, none)
  else
    match item? with
    | some _ => .error .lens
    | none =>
      match r? with
      | some r =>
        match untilGet fuel stopping_lens include_lens false true r with
        | .error e => .error e
        | .ok (out?, r') => .ok (.str (out?.getD []) {}, some r')
      | none => .error .noDefault

/-! ### Concrete lenses used by the claims (charsets.py, test scenarios) -/

/-- Translation of charsets.py `alphas`. -/
def alphas : List Char :=
  "abcdefghijklmnopqrstuvwxyzABCDEFGHIJKLMNOPQRSTUVWXYZ".toList

/-- Translation of charsets.py `nums` (`string.digits`). -/
def nums : List Char := ['0', '1', '2', '3', '4', '5', '6', '7', '8', '9']

/-- The lens `AnyOf(alphas, type=str)`. -/
def anyofAlphaStr : PLens := .anyOf alphas false { type := some .tStr }

/-- The lens `AnyOf(nums, type=int)`. -/
def anyofNumInt : PLens := .anyOf nums false { type := some .tInt }

/-- The lens `And(AnyOf(alphas, type=str), AnyOf(nums, type=int), type=list)`
of spec scenario 1. -/
def andAlphaNum : PLens := .and [anyofAlphaStr, anyofNumInt] { type := some .tList }

/-- Sanity check: the scenario lens is what the constructors build. -/
theorem andAlphaNum_construction :
    (do
      let a ← mkAnyOf alphas false (some .tStr) none none false none
      let b ← mkAnyOf nums false (some .tInt) none none false none
      mkAnd [a, b] (some .tList) none none false none) = .ok andAlphaNum := rfl

/-- The lens
`And(Repeat(AnyOf(nums, type=int)), Literal("-"), AnyOf(nums, type=int), type=list)`:
digits, a dash, then one digit — a well-formed lens on which the GetPut
round-trip law fails. -/
def getPutCexLens : PLens :=
  .and [.repeatLens anyofNumInt 1 none {},
        .literal ['-'] { default := some ['-'] },
        anyofNumInt]
    { type := some .tList }

/-- Sanity check: the GetPut counterexample lens is what the constructors
build (`Literal` sets its own default; `Repeat` defaults to `min_count=1`). -/
theorem getPutCexLens_construction :
    (do
      let d1 ← mkAnyOf nums false (some .tInt) none none false none
      let rep ← mkRepeat d1 1 none none none none false none
      let dash ← mkLiteral ['-'] none none none false none
      let d2 ← mkAnyOf nums false (some .tInt) none none false none
      mkAnd [rep, dash, d2] (some .tList) none none false none) = .ok getPutCexLens := rfl

/-- Value GOT by `andAlphaNum` from the input `"m0"` (items carry their
provenance metadata). -/
def c2Got : PyItem :=
  .list
    [.str ['m'] { concrete_input_reader := some ['m', '0'],
                  concrete_start_position := some 0, concrete_end_position := some 1 },
     .int 0 { concrete_input_reader := some ['m', '0'],
              concrete_start_position := some 1, concrete_end_position := some 2 }]
    { concrete_input_reader := some ['m', '0'],
      concrete_start_position := some 0, concrete_end_position := some 2 }

/-- Value GOT by `getPutCexLens` from the input `"1-2"`. -/
def c1CexGot : PyItem :=
  .list
    [.int 1 { concrete_input_reader := some ['1', '-', '2'],
              concrete_start_position := some 0, concrete_end_position := some 1 },
     .int 2 { concrete_input_reader := some ['1', '-', '2'],
              concrete_start_position := some 2, concrete_end_position := some 3 }]
    { concrete_input_reader := some ['1', '-', '2'],
      concrete_start_position := some 0, concrete_end_position := some 3 }

/-- The `Empty(type=str)` lens (whose `__init__` also sets `default=""`). -/
def emptyTypedStr : PLens := .empty none { type := some .tStr, default := some [] }

/-- The lens `Repeat(Empty(type=str), type=list)`: its child stores the empty
string into the container on every iteration without consuming input. -/
def repeatEmptyLens : PLens := .repeatLens emptyTypedStr 1 none { type := some .tList }

/-- The stopping lens `Literal("X")` for the `Until` claims. -/
def untilStop : PLens := .literal ['X'] { default := some ['X'] }

/-! ### Claim theorems -/

/-- C2.  For the lens `And(AnyOf(alphas, type=str), AnyOf(nums, type=int),
type=list)`: `get("m0")` returns the list `["m", 0]` (Python `==` compares
values, ignoring metadata), `put(["d", 0], "m0")` returns `"d0"`, and
`put(["z", 8])` with no concrete input returns `"z8"`. -/
theorem and_anyof_scenario :
    lensGetTop 50 andAlphaNum ['m', '0'] = .ok (some c2Got) ∧
    pyValEq c2Got (.list [.str ['m'] {}, .int 0 {}] {}) = true ∧
    lensPutTop 50 andAlphaNum (some (.list [.str ['d'] {}, .int 0 {}] {}))
        (some ['m', '0']) = .ok ['d', '0'] ∧
    lensPutTop 50 andAlphaNum (some (.list [.str ['z'] {}, .int 8 {}] {}))
        none = .ok ['z', '8'] :=
  ⟨rfl, rfl, rfl, rfl⟩

/-- C1 counterexample.  GetPut fails on the well-formed lens
`And(Repeat(AnyOf(nums, type=int)), Literal("-"), AnyOf(nums, type=int),
type=list)` with input `"1-2"`: GET succeeds with `[1, 2]`, but PUTting that
very value back raises `NoTokenToConsumeException` instead of returning
`"1-2"` — the untyped `Repeat`'s no-reader phase absorbs the container item
that belongs to the sibling `AnyOf`, which then finds no token. -/
theorem getPut_fails_for_untyped_repeat_before_sibling :
    lensGetTop 50 getPutCexLens ['1', '-', '2'] = .ok (some c1CexGot) ∧
    lensPutTop 50 getPutCexLens (some c1CexGot) (some ['1', '-', '2']) =
      .error .noTokenToConsume :=
  ⟨rfl, rfl⟩

/-- C8.  `Until._put` guards the STORE branch with
`not isinstance(item, str) and len(item) > 0` — by Python precedence this
raises only for non-string items of positive length, so PUTting the *empty
string* through a STORE `Until` succeeds and outputs `""`, although the
guard's own error message ("Expected to be passed a string of length at
least one character") and the spec demand a failure. -/
theorem until_put_accepts_empty_string :
    untilPut 50 untilStop false true (some (.str [] {})) none =
      .ok (.str [] {}, none) := rfl

/-- C5 counterexample.  `AnyOf._get` on an exhausted reader does not fail
with the `EndOfInput` kind: the reader's `EndOfStringException` is caught
inside `_get` and a plain `LensException` is raised in its place. -/
theorem anyof_get_end_of_input_raises_plain_lens_exception :
    lensGet.proper 5 (.anyOf nums false { type := some .tStr })
        (ConcreteInputReader.ofString []) none = .error .lens ∧
    (PyErr.lens ≠ PyErr.endOfString) :=
  ⟨rfl, by decide⟩

/-- C5 amended.  `AnyOf` GET consumes exactly one character: on an exhausted
reader it fails with a plain `LensException` (the `EndOfStringException` from
`consume_char` is caught and converted), on an available character failing
the charset test (per `negate`) it fails with `LensException`, and on a valid
character it succeeds, advancing the position by exactly one and returning
the character when the lens is STORE. -/
theorem anyof_get_characterisation (fuel : Nat) (valid_chars : List Char)
    (negate : Bool) (opts : Options) (r : ConcreteInputReader)
    (c? : Option ListContainer) :
    (r.is_fully_consumed = true →
      lensGet.proper (fuel + 1) (.anyOf valid_chars negate opts) r c? = .error .lens) ∧
    (∀ h : r.position < r.string.length,
      (isValidChar valid_chars negate (r.string.get ⟨r.position, h⟩) = false →
        lensGet.proper (fuel + 1) (.anyOf valid_chars negate opts) r c? = .error .lens) ∧
      (isValidChar valid_chars negate (r.string.get ⟨r.position, h⟩) = true →
        lensGet.proper (fuel + 1) (.anyOf valid_chars negate opts) r c? =
          .ok ((if opts.type.isSome then
                  some (.str [r.string.get ⟨r.position, h⟩] {}) else none),
               { r with position := r.position + 1 }, c?))) := by
  constructor
  · intro hfull
    have hge : ¬ r.position < r.string.length := by
      simp [ConcreteInputReader.is_fully_consumed] at hfull
      omega
    simp [lensGet.proper, ConcreteInputReader.consume_char, hge]
  · intro h
    constructor
    · intro hbad
      simp only [List.get_eq_getElem] at hbad
      simp [lensGet.proper, ConcreteInputReader.consume_char, h, hbad]
    · intro hgood
      simp only [List.get_eq_getElem] at hgood
      simp [lensGet.proper, ConcreteInputReader.consume_char, h, hgood]

/-- Witness for the `AnyOf` GET characterisation: concrete success on a valid
character and concrete failure at end of input. -/
theorem anyof_get_characterisation_witness :
    lensGet.proper 9 (.anyOf ['a', 'b'] false { type := some .tStr })
        ⟨['b'], 0⟩ none = .ok (some (.str ['b'] {}), ⟨['b'], 1⟩, none) ∧
    lensGet.proper 9 (.anyOf ['a', 'b'] false { type := some .tStr })
        ⟨['b'], 1⟩ none = .error .lens := by
  constructor
  · have h := ((anyof_get_characterisation 8 ['a', 'b'] false { type := some .tStr }
      ⟨['b'], 0⟩ none).2 (by decide)).2 (by decide)
    simpa using h
  · exact (anyof_get_characterisation 8 ['a', 'b'] false { type := some .tStr }
      ⟨['b'], 1⟩ none).1 (by decide)

/-- Body used against the tentative-scope claim: it mutates the state and
then raises a `LensException`, like the scenario of test_rollback.py. -/
def c3Body : Nat × List Nat → Except PyErr Unit × (Nat × List Nat) :=
  fun _ => (.error .lens, (3, [3, 4, 16]))

/-- C3 counterexample.  A `RollbackException` raised inside an
`automatic_rollback` scope restores every target to its snapshot, but the
exception is *not* swallowed: `__exit__` does not return `True`, so the error
still propagates out of the scope (test_rollback.py itself catches it outside
the `with` block).  The claim's conjunction — restored *and* swallowed — is
therefore false. -/
theorem automatic_rollback_restores_but_reraises :
    (automatic_rollback (fun a b => a == b) false none c3Body (1, [3, 4])).finalState
      = (1, [3, 4]) ∧
    (automatic_rollback (fun a b => a == b) false none c3Body (1, [3, 4])).result
      = (.error .lens : Except PyErr Unit) :=
  ⟨rfl, rfl⟩

/-- C3 amended.  When the body of a tentative scope raises a rollback-safe
error, every target is restored to the state snapshotted at scope entry (or
the supplied `initial_state`), and the exception propagates out of the scope
for the caller to handle. -/
theorem automatic_rollback_restore_and_propagate {σ α : Type}
    (stateEq : σ → σ → Bool) (chk : Bool) (init : Option σ)
    (body : σ → Except PyErr α × σ) (s s1 : σ) (e : PyErr)
    (hbody : body s = (.error e, s1)) (hroll : e.isRollbackException = true) :
    (automatic_rollback stateEq chk init body s).finalState = init.getD s ∧
    (automatic_rollback stateEq chk init body s).result = .error e := by
  simp [automatic_rollback, hbody, hroll]

/-- Witness for the amended tentative-scope property at a concrete body and
state. -/
theorem automatic_rollback_restore_and_propagate_witness :
    (automatic_rollback (fun a b => a == b) true none
        (fun _ => ((.error .endOfString : Except PyErr Unit), 7)) 5).finalState = 5 ∧
    (automatic_rollback (fun a b => a == b) true none
        (fun _ => ((.error .endOfString : Except PyErr Unit), 7)) 5).result
      = .error .endOfString := by
  have h := automatic_rollback_restore_and_propagate (fun a b : Nat => a == b) true none
    (fun _ => ((.error .endOfString : Except PyErr Unit), 7)) 5 7 .endOfString rfl rfl
  simpa using h

/-- C6 counterexample.  `Empty.__init__` assigns `self.default = ""` after
the common initialisation, so `Empty(type=str)` — accepted by the
constructors — ends up with *both* a type and a default value, violating the
claimed invariant that no constructed lens holds both. -/
theorem empty_lens_with_type_has_default :
    mkEmpty none (some .tStr) none none false none =
      .ok (.empty none { type := some .tStr, default := some ([] : List Char) }) ∧
    Options.hasBothTypeAndDefault
      { type := some .tStr, default := some ([] : List Char) } = true :=
  ⟨rfl, rfl⟩

/-- C6 amended.  `Lens.__init__` raises whenever both a type and a default
are passed, and lenses built without label options end up without the pair —
with the exception of `Empty`, which installs `default=""` after
initialisation, so a typed `Empty` carries both. -/
theorem type_default_exclusion_at_init :
    (∀ (t : LensTy) (d : List Char) (l : Option (List Char)) (il : Bool)
       (al : Option AlignMode), lensInit (some t) (some d) l il al = .error .fatal) ∧
    (∀ (cs : List Char) (neg : Bool) (t : Option LensTy) (d : Option (List Char))
       (lres : PLens), mkAnyOf cs neg t d none false none = .ok lres →
         lres.opts.hasBothTypeAndDefault = false) ∧
    (∀ (s : List Char) (t : Option LensTy) (d : Option (List Char)) (lres : PLens),
       mkLiteral s t d none false none = .ok lres →
         lres.opts.hasBothTypeAndDefault = false) ∧
    (∀ (t : LensTy) (lres : PLens),
       mkEmpty none (some t) none none false none = .ok lres →
         lres.opts.hasBothTypeAndDefault = true) := by
  refine ⟨?_, ?_, ?_, ?_⟩
  · intro t d l il al
    simp [lensInit]
  · intro cs neg t d lres h
    match t, d with
    | some _, some _ => simp [mkAnyOf, lensInit] at h
    | some _, none =>
        simp [mkAnyOf, lensInit] at h
        subst h; rfl
    | none, some _ =>
        simp [mkAnyOf, lensInit] at h
        subst h; rfl
    | none, none =>
        simp [mkAnyOf, lensInit] at h
        subst h; rfl
  · intro s t d lres h
    by_cases hs : s.isEmpty
    · simp [mkLiteral, hs] at h
    · match t, d with
      | some _, some _ => simp [mkLiteral, hs, lensInit] at h
      | some _, none =>
          simp [mkLiteral, hs, lensInit] at h
          subst h; rfl
      | none, some _ =>
          simp [mkLiteral, hs, lensInit] at h
          subst h; rfl
      | none, none =>
          simp [mkLiteral, hs, lensInit] at h
          subst h; rfl
  · intro t lres h
    simp [mkEmpty, lensInit] at h
    subst h; rfl

/-- Witness for the constructor-invariant theorem: concrete applications of
each conjunct. -/
theorem type_default_exclusion_at_init_witness :
    lensInit (some .tInt) (some ['x']) none false none = .error .fatal ∧
    Options.hasBothTypeAndDefault
      { type := some .tStr, default := (none : Option (List Char)) } = false := by
  constructor
  · exact (type_default_exclusion_at_init).1 .tInt ['x'] none false none
  · exact (type_default_exclusion_at_init).2.1 ['q'] false (some .tStr) none
      (.anyOf ['q'] false { type := some .tStr }) rfl

/-- C9 counterexample.  `DictContainer.store_item` on an unlabeled item
raises `LensException`, which *is* a rollback-safe `RollbackException`
(`LensException(RollbackException)` in exceptions.py) — not a fatal error
that would bypass the tentative scopes, as the claim states. -/
theorem dict_store_unlabeled_raises_lens_exception :
    dictContainer_store_item {} (.int 5 {}) = .error .lens ∧
    PyErr.lens.isRollbackException = true :=
  ⟨rfl, rfl⟩

/-- C9 amended.  Storing an unlabeled item into a map container raises
`LensException`; being a `RollbackException` subclass, this error is
rollback-safe (tentative scopes restore state on it), not fatal. -/
theorem dict_store_unlabeled_rollback_safe (c : ListContainer) (item : PyItem)
    (h : item.meta.label = none) :
    dictContainer_store_item c item = .error .lens ∧
    PyErr.lens.isLensException = true ∧
    PyErr.lens.isRollbackException = true := by
  refine ⟨?_, rfl, rfl⟩
  simp [dictContainer_store_item, h]

/-- Witness for the unlabeled-store property at a concrete container and
item. -/
theorem dict_store_unlabeled_rollback_safe_witness :
    dictContainer_store_item { container_item := [.int 1 { label := some ['a'] }] }
        (.str ['h'] {}) = .error .lens :=
  (dict_store_unlabeled_rollback_safe
    { container_item := [.int 1 { label := some ['a'] }] } (.str ['h'] {}) rfl).1

/-- C10.  Reader consumption is exact and atomic: `consume_string(n)` at
position `p` succeeds if and only if `p + n ≤ len(string)`, returning exactly
the slice `string[p : p+n]` and setting the position to `p + n`; otherwise it
raises `EndOfStringException` with the position untouched.  `consume_char`
behaves exactly like `consume_string(1)`, returning the character at `p`. -/
theorem consume_exact_and_atomic (r : ConcreteInputReader) (n : Nat) :
    (r.position + n ≤ r.string.length →
      r.consume_string n =
        (.ok ((r.string.drop r.position).take n),
         { r with position := r.position + n })) ∧
    (r.position + n > r.string.length →
      r.consume_string n = (.error .endOfString, r)) ∧
    (∀ h : r.position < r.string.length,
      r.consume_char =
        (.ok (r.string.get ⟨r.position, h⟩), { r with position := r.position + 1 }) ∧
      r.consume_string 1 =
        (.ok [r.string.get ⟨r.position, h⟩], { r with position := r.position + 1 })) ∧
    (r.position ≥ r.string.length →
      r.consume_char = (.error .endOfString, r) ∧
      r.consume_string 1 = (.error .endOfString, r)) := by
  refine ⟨?_, ?_, ?_, ?_⟩
  · intro hle
    have hnot : ¬ r.position + n > r.string.length := by omega
    simp [ConcreteInputReader.consume_string, hnot, List.drop_take]
  · intro hgt
    simp [ConcreteInputReader.consume_string, hgt]
  · intro h
    constructor
    · simp [ConcreteInputReader.consume_char, h]
    · have hnot : ¬ r.position + 1 > r.string.length := by omega
      simp [ConcreteInputReader.consume_string, hnot]
      rw [List.drop_take]
      have : r.position + 1 - r.position = 1 := by omega
      rw [this]
      rw [List.take_one_drop_eq_of_lt_length h]
      simp [List.get_eq_getElem]
  · intro hge
    have hnot : ¬ r.position < r.string.length := by omega
    constructor
    · simp [ConcreteInputReader.consume_char, hnot]
    · have : r.position + 1 > r.string.length := by omega
      simp [ConcreteInputReader.consume_string, this]

/-- Witness for reader consumption at concrete readers: a successful slice, a
failing over-long request leaving the position unchanged, and a single-char
consumption. -/
theorem consume_exact_and_atomic_witness :
    ConcreteInputReader.consume_string ⟨['a', 'b', 'c'], 1⟩ 2 =
      (.ok ['b', 'c'], ⟨['a', 'b', 'c'], 3⟩) ∧
    ConcreteInputReader.consume_string ⟨['a', 'b', 'c'], 2⟩ 5 =
      (.error .endOfString, ⟨['a', 'b', 'c'], 2⟩) ∧
    ConcreteInputReader.consume_char ⟨['a', 'b', 'c'], 1⟩ =
      (.ok 'b', ⟨['a', 'b', 'c'], 2⟩) := by
  refine ⟨?_, ?_, ?_⟩
  · have h := (consume_exact_and_atomic ⟨['a', 'b', 'c'], 1⟩ 2).1 (by decide)
    simpa using h
  · exact (consume_exact_and_atomic ⟨['a', 'b', 'c'], 2⟩ 5).2.1 (by decide)
  · have h := ((consume_exact_and_atomic ⟨['a', 'b', 'c'], 1⟩ 1).2.2.1 (by decide)).1
    simpa using h

/-! Helper lemmas for the Repeat termination claim. -/

/-- Appending an item always changes the Python value of an item list. -/
theorem pyValListEq_append_one (xs : List PyItem) (y : PyItem) :
    pyValListEq xs (xs ++ [y]) = false := by
  induction xs with
  | nil => rfl
  | cons x xs ih => simp [pyValListEq, ih]

/-- One `Repeat._get` iteration with the `Empty(type=str)` child: it stores
the empty string into the container without consuming input (once three fuel
steps are available for the call chain). -/
theorem emptyChild_containerGet (k : Nat) (r : ConcreteInputReader) (c : ListContainer) :
    containerGet (k + 3) emptyTypedStr r (some c) =
      .ok (r, some (c.store_item (.str []
        { concrete_input_reader := some r.string
          concrete_start_position := some r.position
          concrete_end_position := some r.position }))) := rfl

/-- One unfolding of the `Repeat._get` loop when the iteration succeeds with
a state change and the maximum is not reached. -/
theorem repeatGetLoop_step_changed (fuel : Nat) (sub : PLens) (maxc : Option Nat)
    (r r' : ConcreteInputReader) (c? c?' : Option ListContainer) (k : Nat)
    (hok : containerGet fuel sub r c? = .ok (r', c?'))
    (hch : rollbackablesStateChanged (some r) (some r') c? c?' = true)
    (hmax : (maxc == some (k + 1)) = false) :
    repeatGetLoop (fuel + 1) sub maxc r c? k =
      repeatGetLoop fuel sub maxc r' c?' (k + 1) := by
  simp [repeatGetLoop, hok, hch, hmax]

/-- With the `Empty(type=str)` child, every iteration of the `Repeat._get`
loop succeeds and grows the container, so the loop never exits: every fuel
runs out. -/
theorem repeatEmpty_loop_diverges :
    ∀ (fuel : Nat) (r : ConcreteInputReader) (c : ListContainer) (k : Nat),
      repeatGetLoop fuel emptyTypedStr none r (some c) k = .error .fuelOut := by
  intro fuel
  induction fuel with
  | zero => intro r c k; rfl
  | succ f ih =>
    intro r c k
    match f with
    | 0 => rfl
    | 1 => rfl
    | 2 => rfl
    | m + 3 =>
      have hch : rollbackablesStateChanged (some r) (some r) (some c)
          (some (c.store_item (.str []
            { concrete_input_reader := some r.string
              concrete_start_position := some r.position
              concrete_end_position := some r.position }))) = true := by
        simp [rollbackablesStateChanged, contStateEq, ListContainer.store_item,
          pyValListEq_append_one]
      rw [repeatGetLoop_step_changed (m + 3) emptyTypedStr none r r (some c) _ k
        (emptyChild_containerGet m r c) hch rfl]
      exact ih r _ (k + 1)

/-- Every fuel budget for `Repeat(Empty(type=str), type=list).get("")` is
exhausted: the interpreter reports `fuelOut` at every fuel, the image of the
Python loop running forever. -/
theorem repeatEmptyLens_get_fuelOut (fuel : Nat) :
    lensGetTop fuel repeatEmptyLens [] = .error .fuelOut := by
  match fuel with
  | 0 => rfl
  | 1 => rfl
  | g + 2 =>
    have hloop := repeatEmpty_loop_diverges g (ConcreteInputReader.ofString []) {} 0
    simp [lensGetTop, lensGet, lensGet.proper, repeatEmptyLens,
      PLens.isContainerType, PLens.opts, hloop]

/-- C4 counterexample.  `Repeat(L).get` does *not* terminate for every child
lens: with the child `Empty(type=str)` on the empty input, each iteration
succeeds, consumes nothing, and stores `""` into the container — a state
change every time — so with no `max_count` the loop never stops, and no fuel
yields a result. -/
theorem repeat_get_diverges_on_storing_empty_child :
    ¬ ∃ (fuel : Nat) (v : Option PyItem),
        lensGetTop fuel repeatEmptyLens [] = .ok v := by
  rintro ⟨fuel, v, h⟩
  rw [repeatEmptyLens_get_fuelOut] at h
  exact Except.noConfusion h

/-- C4 amended (the progress property).  When an iteration of the
`Repeat._get` loop succeeds but changes no state — neither the reader
position nor the container snapshot — the loop exits immediately without
counting the iteration: a zero-width, zero-effect child cannot loop
forever. -/
theorem repeat_get_stops_without_state_change (fuel : Nat) (sub : PLens)
    (max_count : Option Nat) (r r' : ConcreteInputReader)
    (c? c?' : Option ListContainer) (no_got : Nat)
    (hok : containerGet fuel sub r c? = .ok (r', c?'))
    (hnc : rollbackablesStateChanged (some r) (some r') c? c?' = false) :
    repeatGetLoop (fuel + 1) sub max_count r c? no_got = .ok (r', c?', no_got) := by
  simp [repeatGetLoop, hok, hnc]

/-- Witness for the progress property: an untyped `Empty` child succeeds with
no state change, and the loop stops at once. -/
theorem repeat_get_stops_without_state_change_witness :
    repeatGetLoop 6 (.empty none {}) none ⟨['a'], 0⟩ none 0 =
      .ok (⟨['a'], 0⟩, none, 0) :=
  repeat_get_stops_without_state_change 5 (.empty none {}) none
    ⟨['a'], 0⟩ ⟨['a'], 0⟩ none none 0 rfl rfl

/-! Items for the SOURCE-alignment claim. -/

/-- A newly created candidate: no concrete start position. -/
def newItem : PyItem := .int 1 {}

/-- A candidate whose concrete start position equals the `LARGE_INTEGER`
sentinel (an input of at least `0xFFFFFFFF` characters makes this real). -/
def sentinelItem : PyItem := .int 2 { concrete_start_position := some 4294967295 }

/-- C7 counterexample.  In SOURCE mode, items lacking a concrete start
position get the sort key `LARGE_INTEGER = 0xFFFFFFFF`; an item whose real
position equals that sentinel ties with them, and the stable sort then keeps
the position-less item *before* the positioned one — not after it, as the
claim requires. -/
theorem source_alignment_sentinel_tie :
    filter_and_sort_candidate_items [newItem, sentinelItem] none (some .SOURCE) =
      .ok [newItem, sentinelItem] ∧
    newItem.meta.concrete_start_position = none ∧
    sentinelItem.meta.concrete_start_position = some LARGE_INTEGER :=
  ⟨rfl, rfl, rfl⟩

/-- C7 amended.  With no static label and SOURCE alignment, candidate
filtering returns all items, stably sorted ascending by start-position key;
whenever every concrete start position is below the `LARGE_INTEGER` sentinel,
every item lacking a position comes after every item that has one. -/
theorem source_alignment_sorted_below_sentinel (items : List PyItem)
    (h : ∀ it ∈ items, ∀ p, it.meta.concrete_start_position = some p →
      p < LARGE_INTEGER) :
    ∃ out, filter_and_sort_candidate_items items none (some .SOURCE) = .ok out ∧
      out.Perm items ∧
      out.Pairwise (fun x y => sortKey x ≤ sortKey y) ∧
      out.Pairwise (fun x y => x.meta.concrete_start_position = none →
        y.meta.concrete_start_position = none) := by
  classical
  refine ⟨items.insertionSort (fun x y => sortKey x ≤ sortKey y), rfl, ?_, ?_, ?_⟩
  · exact List.perm_insertionSort _ _
  · haveI : IsTotal PyItem (fun x y => sortKey x ≤ sortKey y) :=
      ⟨fun a b => Nat.le_total (sortKey a) (sortKey b)⟩
    haveI : IsTrans PyItem (fun x y => sortKey x ≤ sortKey y) :=
      ⟨fun a b c hab hbc => Nat.le_trans hab hbc⟩
    exact List.sorted_insertionSort _ _
  · haveI : IsTotal PyItem (fun x y => sortKey x ≤ sortKey y) :=
      ⟨fun a b => Nat.le_total (sortKey a) (sortKey b)⟩
    haveI : IsTrans PyItem (fun x y => sortKey x ≤ sortKey y) :=
      ⟨fun a b c hab hbc => Nat.le_trans hab hbc⟩
    have hsorted := List.sorted_insertionSort
      (fun x y => sortKey x ≤ sortKey y) items
    have hmem : ∀ x ∈ items.insertionSort (fun x y => sortKey x ≤ sortKey y),
        x ∈ items := fun x hx => (List.perm_insertionSort _ _).mem_iff.mp hx
    refine List.Pairwise.imp_of_mem ?_ hsorted
    intro a b ha hb hle hnone
    cases hb' : b.meta.concrete_start_position with
    | none => rfl
    | some p =>
      exfalso
      have hp : p < LARGE_INTEGER := h b (hmem b hb) p hb'
      have hka : sortKey a = LARGE_INTEGER := by simp [sortKey, hnone]
      have hkb : sortKey b = p := by simp [sortKey, hb']
      omega

/-- Witness for the amended SOURCE-alignment property at a concrete candidate
list: a positioned pair out of order plus a fresh item. -/
theorem source_alignment_sorted_below_sentinel_witness :
    ∃ out, filter_and_sort_candidate_items
        [.int 1 { concrete_start_position := some 5 }, .int 2 {},
         .int 3 { concrete_start_position := some 1 }] none (some .SOURCE) =
        .ok out ∧
      out.Perm [.int 1 { concrete_start_position := some 5 }, .int 2 {},
        .int 3 { concrete_start_position := some 1 }] ∧
      out.Pairwise (fun x y => sortKey x ≤ sortKey y) ∧
      out.Pairwise (fun x y => x.meta.concrete_start_position = none →
        y.meta.concrete_start_position = none) := by
  refine source_alignment_sorted_below_sentinel _ ?_
  intro it hit p hp
  simp only [List.mem_cons, List.not_mem_nil, or_false] at hit
  rcases hit with rfl | rfl | rfl
  · simp [PyItem.meta] at hp
    simp [LARGE_INTEGER]
    omega
  · simp [PyItem.meta] at hp
  · simp [PyItem.meta] at hp
    simp [LARGE_INTEGER]
    omega

/-! Helper lemmas about single digits, for the GetPut proof on the
`And(AnyOf, AnyOf)` lens. -/

/-- Membership in the `nums` charset enumerated. -/
theorem nums_cases (c : Char) (h : nums.contains c = true) :
    c = '0' ∨ c = '1' ∨ c = '2' ∨ c = '3' ∨ c = '4' ∨ c = '5' ∨ c = '6' ∨
    c = '7' ∨ c = '8' ∨ c = '9' := by
  simpa [nums] using h

/-- Python `int()` of a one-digit string. -/
theorem pyIntOfString_digit (c : Char) (h : nums.contains c = true) :
    pyIntOfString [c] = .ok ((c.toNat : Int) - 48) := by
  rcases nums_cases c h with rfl | rfl | rfl | rfl | rfl | rfl | rfl | rfl | rfl | rfl <;> rfl

/-- Python `str()` of the integer value of a digit recovers the digit. -/
theorem pyIntRepr_digit (c : Char) (h : nums.contains c = true) :
    pyIntRepr ((c.toNat : Int) - 48) = [c] := by
  rcases nums_cases c h with rfl | rfl | rfl | rfl | rfl | rfl | rfl | rfl | rfl | rfl <;> rfl

/-- Value GOT by the `And(AnyOf(alphas, type=str), AnyOf(nums, type=int),
type=list)` lens from a two-character input. -/
def andGot (c1 c2 : Char) : PyItem :=
  .list
    [.str [c1] { concrete_input_reader := some [c1, c2],
                 concrete_start_position := some 0, concrete_end_position := some 1 },
     .int ((c2.toNat : Int) - 48)
       { concrete_input_reader := some [c1, c2],
         concrete_start_position := some 1, concrete_end_position := some 2 }]
    { concrete_input_reader := some [c1, c2],
      concrete_start_position := some 0, concrete_end_position := some 2 }

/-- GET of the scenario lens on a valid two-character input. -/
theorem andAlphaNum_get_pair (c1 c2 : Char) (h1 : alphas.contains c1 = true)
    (h2 : nums.contains c2 = true) :
    lensGetTop 50 andAlphaNum [c1, c2] = .ok (some (andGot c1 c2)) := by
  have h1m : c1 ∈ alphas := by simpa using h1
  have h2m : c2 ∈ nums := by simpa using h2
  simp [lensGetTop, lensGet, lensGet.proper, andGetList, containerGet,
    castToType, isInstance, processOutgoingItem, isValidChar,
    PLens.isContainerType, PLens.has_type, PLens.opts,
    andAlphaNum, anyofAlphaStr, anyofNumInt, andGot,
    ConcreteInputReader.ofString, ConcreteInputReader.consume_char,
    ConcreteInputReader.is_fully_consumed, ListContainer.store_item,
    check_consumption, PyItem.meta, PyItem.withMeta,
    h1m, h2m, pyIntOfString_digit c2 h2]

/-- PUT of the GOT value back through the scenario lens reproduces the
input. -/
theorem andAlphaNum_put_pair (c1 c2 : Char) (h1 : alphas.contains c1 = true)
    (h2 : nums.contains c2 = true) :
    lensPutTop 50 andAlphaNum (some (andGot c1 c2)) (some [c1, c2]) =
      .ok [c1, c2] := by
  have h1m : c1 ∈ alphas := by simpa using h1
  have h2m : c2 ∈ nums := by simpa using h2
  simp [lensPutTop, lensPut, lensPut.proper, lensPut.typedBody, andPutList,
    containerPut, consumeAndPutItem, candidatesLoop,
    filter_and_sort_candidate_items, removeFirstValEq, pyValEq, pyStr,
    lensGetTop, lensGet, lensGet.proper, castToType, isInstance,
    processOutgoingItem, isValidChar, getAndDiscard,
    PLens.isContainerType, PLens.has_type, PLens.opts,
    andAlphaNum, anyofAlphaStr, anyofNumInt, andGot,
    ConcreteInputReader.ofString, ConcreteInputReader.consume_char,
    ConcreteInputReader.is_fully_consumed, ConcreteInputReader.is_aligned_with,
    ListContainer.store_item, ListContainer.set_label_overwrite,
    ListContainer.set_container_lens, ListContainer.is_fully_consumed,
    check_consumption, PyItem.meta, PyItem.withMeta,
    h1m, h2m, pyIntOfString_digit c2 h2, pyIntRepr_digit c2 h2]

/-- C1 amended.  GetPut fails in general (see the counterexample), but it
does hold for common well-formed lenses: for
`And(AnyOf(alphas, type=str), AnyOf(nums, type=int), type=list)` and *every*
input string `s` on which GET succeeds with value `v`, `put(v, s)` returns
exactly `s`. -/
theorem getPut_holds_for_and_anyof_lens (s : List Char) (v : PyItem)
    (h : lensGetTop 50 andAlphaNum s = .ok (some v)) :
    lensPutTop 50 andAlphaNum (some v) (some s) = .ok s := by
  match s with
  | [] =>
    rw [show lensGetTop 50 andAlphaNum [] = .error .lens from rfl] at h
    exact Except.noConfusion h
  | [c1] =>
    have hfail : lensGetTop 50 andAlphaNum [c1] = .error .lens := by
      by_cases hc1 : c1 ∈ alphas
      · simp [lensGetTop, lensGet, lensGet.proper, andGetList, containerGet,
          castToType, isInstance, processOutgoingItem, isValidChar,
          PLens.isContainerType, PLens.has_type, PLens.opts,
          andAlphaNum, anyofAlphaStr, anyofNumInt,
          ConcreteInputReader.ofString, ConcreteInputReader.consume_char,
          ListContainer.store_item, PyItem.meta, PyItem.withMeta, hc1]
      · simp [lensGetTop, lensGet, lensGet.proper, andGetList, containerGet,
          isValidChar, PLens.isContainerType, PLens.has_type, PLens.opts,
          andAlphaNum, anyofAlphaStr, anyofNumInt,
          ConcreteInputReader.ofString, ConcreteInputReader.consume_char, hc1]
    rw [hfail] at h
    exact Except.noConfusion h
  | c1 :: c2 :: rest =>
    by_cases hc1 : c1 ∈ alphas
    · by_cases hc2 : c2 ∈ nums
      · match rest with
        | [] =>
          have hc1b : alphas.contains c1 = true := by simpa using hc1
          have hc2b : nums.contains c2 = true := by simpa using hc2
          rw [andAlphaNum_get_pair c1 c2 hc1b hc2b] at h
          have hv : andGot c1 c2 = v := by
            simpa using h
          rw [← hv]
          exact andAlphaNum_put_pair c1 c2 hc1b hc2b
        | c3 :: rest2 =>
          have hc2b : nums.contains c2 = true := by simpa using hc2
          have hfc : ConcreteInputReader.is_fully_consumed
              ⟨c1 :: c2 :: c3 :: rest2, 2⟩ = false := by
            simp [ConcreteInputReader.is_fully_consumed]
          have hfail : lensGetTop 50 andAlphaNum (c1 :: c2 :: c3 :: rest2) =
              .error .notFullyConsumed := by
            simp [lensGetTop, lensGet, lensGet.proper, andGetList, containerGet,
              castToType, isInstance, processOutgoingItem, isValidChar,
              PLens.isContainerType, PLens.has_type, PLens.opts,
              andAlphaNum, anyofAlphaStr, anyofNumInt,
              ConcreteInputReader.ofString, ConcreteInputReader.consume_char,
              ListContainer.store_item, PyItem.meta, PyItem.withMeta,
              check_consumption, hfc, hc1, hc2, pyIntOfString_digit c2 hc2b]
          rw [hfail] at h
          exact Except.noConfusion h
      · have hfail : lensGetTop 50 andAlphaNum (c1 :: c2 :: rest) =
            .error .lens := by
          simp [lensGetTop, lensGet, lensGet.proper, andGetList, containerGet,
            castToType, isInstance, processOutgoingItem, isValidChar,
            PLens.isContainerType, PLens.has_type, PLens.opts,
            andAlphaNum, anyofAlphaStr, anyofNumInt,
            ConcreteInputReader.ofString, ConcreteInputReader.consume_char,
            ListContainer.store_item, PyItem.meta, PyItem.withMeta, hc1, hc2]
        rw [hfail] at h
        exact Except.noConfusion h
    · have hfail : lensGetTop 50 andAlphaNum (c1 :: c2 :: rest) = .error .lens := by
        simp [lensGetTop, lensGet, lensGet.proper, andGetList, containerGet,
          isValidChar, PLens.isContainerType, PLens.has_type, PLens.opts,
          andAlphaNum, anyofAlphaStr, anyofNumInt,
          ConcreteInputReader.ofString, ConcreteInputReader.consume_char, hc1]
      rw [hfail] at h
      exact Except.noConfusion h

/-- Witness for the GetPut law on the scenario lens at the concrete input
`"m0"`. -/
theorem getPut_holds_for_and_anyof_lens_witness :
    lensPutTop 50 andAlphaNum (some c2Got) (some ['m', '0']) = .ok ['m', '0'] :=
  getPut_holds_for_and_anyof_lens ['m', '0'] c2Got rfl

end Pylens
